import Mathlib

/-!
Shallow embedding of the libzypp resolvable-filter slice:
`zypp/ResFilters.h`, `zypp/Resolvable.cc`, `zypp/SrcPackage.cc`.

Records, pool items and capability/item pairs are plain structures; each
filter functor of `namespace zypp::resfilter` becomes a Bool-valued Lean
function translated from its `operator()` body.  Types that the given
sources only reference (ResStatus, CapMatch, the comparator functors,
ResTraits) are modelled from the specification and marked as such.
-/

namespace zypp

/-- Kind tag of a resolvable (opaque identifier; embedded as a string). -/
abbrev ResKind := String

/-- Name of a resolvable (exact, case-sensitive text). -/
abbrev ResName := String

/-- Edition value of a resolvable (opaque versioned identifier). -/
abbrev ResEdition := String

/-- Architecture tag of a resolvable. -/
abbrev ResArch := String

/-- Source reference handle; equality-comparable (embedded as a number). -/
abbrev SourceRef := Nat

/-- A dereferenced, live `ResObject` handle as the filter functors of
`ResFilters.h` consume it: read accessors `kind`/`name`/`edition`/`arch`
and `source` become fields. -/
structure ResObject where
  kind : ResKind
  name : ResName
  edition : ResEdition
  arch : ResArch
  source : SourceRef
deriving Repr, DecidableEq

/-- Modelled from the spec: the mutable status cell of a pool entry
(`ResStatus`, declared outside the given sources) exposes the four read
accessors `isInstalled`, `isUninstalled`, `transacts`, `isLocked`. -/
structure ResStatus where
  isInstalled : Bool
  isUninstalled : Bool
  transacts : Bool
  isLocked : Bool
deriving Repr, DecidableEq

/-- Modelled from the spec: a pool entry (`PoolItem`, declared outside the
given sources) wraps a resolvable record plus its status; `item->attr()`
dereferences to the record and `item.status()` reads the status cell. -/
structure PoolItem where
  resolvable : ResObject
  status : ResStatus
deriving Repr, DecidableEq

/-- Modelled from the spec: the three-valued result of a capability match
query (`CapMatch`, declared outside the given sources). -/
inductive CapMatch
  | yes
  | maybe
  | no
deriving Repr, DecidableEq, BEq

/-- Modelled from the spec: a capability (`Capability`, declared outside the
given sources) is an opaque dependency expression answering a three-valued
match query against another capability; we carry the answer table as a
function of the other capability's identity. -/
structure Capability where
  id : Nat
  matchesFn : Nat → CapMatch

/-- The three-valued match query: `cap.matches( other )`. -/
def Capability.matches (cap other : Capability) : CapMatch :=
  cap.matchesFn other.id

/-- Modelled from the spec: a `(capability, record)` pair yielded by a
capability index lookup (`CapAndItem`, declared outside the given sources),
with fields `cap` and `item`. -/
structure CapAndItem where
  cap : Capability
  item : PoolItem

namespace resfilter

/-- `ByKind`: selects a `ResObject` by kind; `p->kind() == _kind`. -/
def ByKind (kind : ResKind) (p : ResObject) : Bool :=
  p.kind == kind

/-- Modelled from the spec: the resolvable subtypes over which the generic
factories `byKind<T>` / `byCaIKind<T>` range (`ResTraits<T>` is declared
outside the given sources). -/
inductive ResType
  | package
  | selection
  | pattern
  | script
  | message
  | patch
  | product
  | srcpackage
deriving Repr, DecidableEq

/-- Modelled from the spec: `ResTraits<T>::kind`, the kind tag associated
with each resolvable subtype. -/
def ResTraits.kind : ResType → ResKind
  | .package => "package"
  | .selection => "selection"
  | .pattern => "pattern"
  | .script => "script"
  | .message => "message"
  | .patch => "patch"
  | .product => "product"
  | .srcpackage => "srcpackage"

/-- Generic factory `byKind<_Res>()`: returns `ByKind( ResTraits<_Res>::kind )`. -/
def byKind (T : ResType) : ResObject → Bool :=
  ByKind (ResTraits.kind T)

/-- `ByName`: selects a `ResObject` by name; `p->name() == _name`. -/
def ByName (name : ResName) (p : ResObject) : Bool :=
  p.name == name

/-- `BySource`: selects a `ResObject` by source; `p->source() == _source`. -/
def BySource (source : SourceRef) (p : ResObject) : Bool :=
  p.source == source

/-- Modelled from the spec: the default comparator `CompareByEQ<Edition>`
(declared outside the given sources) is equality. -/
def CompareByEQ (a b : ResEdition) : Bool :=
  a == b

/-- `ByEdition<_Compare>`: selects a `ResObject` by edition using a
comparator; `_cmp( p->edition(), _edition )`. -/
def ByEdition (edition : ResEdition) (cmp : ResEdition → ResEdition → Bool)
    (p : ResObject) : Bool :=
  cmp p.edition edition

/-- One-argument form `ByEdition<>( e )`: the struct template parameter
defaults to `CompareByEQ<Edition>`. -/
def byEdition (edition : ResEdition) : ResObject → Bool :=
  ByEdition edition CompareByEQ

/-- Modelled from the spec: the default comparator `CompareByEQ<Arch>` is
equality. -/
def CompareByEQArch (a b : ResArch) : Bool :=
  a == b

/-- `ByArch<_Compare>`: selects a `ResObject` by architecture using a
comparator; `_cmp( p->arch(), _arch )`. -/
def ByArch (arch : ResArch) (cmp : ResArch → ResArch → Bool)
    (p : ResObject) : Bool :=
  cmp p.arch arch

/-- One-argument form `ByArch<>( a )` with the default equality comparator. -/
def byArch (arch : ResArch) : ResObject → Bool :=
  ByArch arch CompareByEQArch

/-- `ByInstalled`: `p.status().isInstalled()`. -/
def ByInstalled (p : PoolItem) : Bool :=
  p.status.isInstalled

/-- `ByUninstalled`: `p.status().isUninstalled()`. -/
def ByUninstalled (p : PoolItem) : Bool :=
  p.status.isUninstalled

/-- `ByTransact`: `p.status().transacts()`. -/
def ByTransact (p : PoolItem) : Bool :=
  p.status.transacts

/-- `ByLock`: `p.status().isLocked()`. -/
def ByLock (p : PoolItem) : Bool :=
  p.status.isLocked

/-- `ByCapabilityIndex`: constant `true`; "its all in the PoolImpl". -/
def ByCapabilityIndex (_cai : CapAndItem) : Bool :=
  true

/-- `ByCapMatch`: `cai.cap.matches( _cap ) == CapMatch::yes`. -/
def ByCapMatch (cap : Capability) (cai : CapAndItem) : Bool :=
  Capability.matches cai.cap cap == CapMatch.yes

/-- `ByCaIUninstalled`: `cai.item.status().isUninstalled()`. -/
def ByCaIUninstalled (cai : CapAndItem) : Bool :=
  cai.item.status.isUninstalled

/-- `ByCaIInstalled`: `cai.item.status().isInstalled()`. -/
def ByCaIInstalled (cai : CapAndItem) : Bool :=
  cai.item.status.isInstalled

/-- `ByCaITransact`: `cai.item.status().transacts()`. -/
def ByCaITransact (cai : CapAndItem) : Bool :=
  cai.item.status.transacts

/-- `ByCaINotTransact`: `!(cai.item.status().transacts())`. -/
def ByCaINotTransact (cai : CapAndItem) : Bool :=
  !(cai.item.status.transacts)

/-- `ByCaIKind`: `cai.item->kind() == _kind`. -/
def ByCaIKind (kind : ResKind) (cai : CapAndItem) : Bool :=
  cai.item.resolvable.kind == kind

/-- Generic factory `byCaIKind<_Res>()`: returns
`ByCaIKind( ResTraits<_Res>::kind )`. -/
def byCaIKind (T : ResType) : CapAndItem → Bool :=
  ByCaIKind (ResTraits.kind T)

end resfilter

/-- Modelled from the spec: the opaque implementation object
`detail::ResolvableImpl` (declared outside the given sources) holding the
real attribute values; its default constructor yields some attribute
values, unspecified here. -/
structure ResolvableImpl where
  kind : ResKind
  name : ResName
  edition : ResEdition
  arch : ResArch
deriving Repr, DecidableEq

/-- The implementation object produced by `new detail::ResolvableImpl`. -/
def ResolvableImpl.defaultImpl : ResolvableImpl :=
  { kind := "", name := "", edition := "", arch := "" }

/-- A `Resolvable` holds a (possibly null) shared pointer `_pimpl` to its
implementation; `none` models the null pointer. -/
structure Resolvable where
  pimpl : Option ResolvableImpl

/-- `Resolvable::Resolvable()` — `_pimpl( new detail::ResolvableImpl )`:
a freshly allocated, non-null implementation. -/
def Resolvable.mkDefault : Resolvable :=
  { pimpl := some ResolvableImpl.defaultImpl }

/-- `Resolvable::Resolvable( detail::ResolvableImplPtr impl_r )` —
`_pimpl( impl_r )`: the caller-supplied pointer, stored unchecked. -/
def Resolvable.mkFromImpl (impl : Option ResolvableImpl) : Resolvable :=
  { pimpl := impl }

/-- `Resolvable::kind()` — `_pimpl->kind()`: dereferences the pointer;
the result is `none` exactly when the pointer is null. -/
def Resolvable.kind (r : Resolvable) : Option ResKind :=
  r.pimpl.map ResolvableImpl.kind

/-- `Resolvable::name()` — `_pimpl->name()`. -/
def Resolvable.name (r : Resolvable) : Option ResName :=
  r.pimpl.map ResolvableImpl.name

/-- `Resolvable::edition()` — `_pimpl->edition()`. -/
def Resolvable.edition (r : Resolvable) : Option ResEdition :=
  r.pimpl.map ResolvableImpl.edition

/-- `Resolvable::arch()` — `_pimpl->arch()`. -/
def Resolvable.arch (r : Resolvable) : Option ResArch :=
  r.pimpl.map ResolvableImpl.arch

/-- `operator<<( std::ostream &, const Resolvable & )`:
`str << '[' << obj.kind() << ']' << obj.name() << '-' << obj.edition()
<< '.' << obj.arch()`, over a string-accumulator stream; dereferencing a
null implementation pointer yields `none`. -/
def Resolvable.printOn (str : String) (obj : Resolvable) : Option String :=
  match obj.kind, obj.name, obj.edition, obj.arch with
  | some k, some n, some e, some a =>
      some ((((((((str.push '[') ++ k).push ']') ++ n).push '-') ++ e).push '.') ++ a)
  | _, _, _, _ => none

/-- A capability whose match answer is always `no`. -/
def capAllNo : Capability :=
  { id := 0, matchesFn := fun _ => CapMatch.no }

/-- A capability whose match answer is always `maybe`. -/
def capAllMaybe : Capability :=
  { id := 1, matchesFn := fun _ => CapMatch.maybe }

/-- A sample capability used as a match target. -/
def capTarget : Capability :=
  { id := 2, matchesFn := fun _ => CapMatch.yes }

/-- A sample record; its name differs from "kernel" only in letter case. -/
def sampleUpperRecord : ResObject :=
  { kind := "package", name := "Kernel", edition := "1.0",
    arch := "x86_64", source := 0 }

/-- A sample pool item. -/
def samplePoolItem : PoolItem :=
  { resolvable :=
      { kind := "package", name := "kernel", edition := "1.0",
        arch := "x86_64", source := 0 },
    status :=
      { isInstalled := true, isUninstalled := false,
        transacts := false, isLocked := false } }

/-- A capability/item pair whose capability answers `no` to every query. -/
def caiAllNo : CapAndItem :=
  { cap := capAllNo, item := samplePoolItem }

end zypp

open zypp zypp.resfilter

/-- Claim C1: for every record `r` and kind `k`, `ByKind k` applied to `r`
is true iff `r.kind == k`; in particular `ByKind r.kind r` is true. -/
theorem ByKind_spec : ∀ (r : ResObject) (k : ResKind),
    ByKind k r = (r.kind == k) ∧ ByKind r.kind r = true := by
  intro r k
  exact ⟨rfl, by simp [ByKind]⟩

/-- Claim C2: `ByCapMatch c` on a pair is true iff the pair's capability's
three-valued match against `c` answers yes; it is false both when the
answer is no and when it is maybe. -/
theorem ByCapMatch_spec (c : Capability) (cai : CapAndItem) :
    ByCapMatch c cai = (Capability.matches cai.cap c == CapMatch.yes)
    ∧ (Capability.matches cai.cap c = CapMatch.no → ByCapMatch c cai = false)
    ∧ (Capability.matches cai.cap c = CapMatch.maybe → ByCapMatch c cai = false) := by
  refine ⟨rfl, ?_, ?_⟩ <;> intro h <;> simp [ByCapMatch, h] <;> decide

/-- Witness for claim C2, at a concrete pair whose match answer is `no`. -/
theorem ByCapMatch_spec_witness :
    Capability.matches caiAllNo.cap capTarget = CapMatch.no
    ∧ ByCapMatch capTarget caiAllNo = false :=
  ⟨rfl, (ByCapMatch_spec capTarget caiAllNo).2.1 rfl⟩

/-- Claim C3: `ByEdition e cmp r` equals `cmp r.edition e`, and the
one-argument form defaults the comparator to equality. -/
theorem ByEdition_spec :
    (∀ (r : ResObject) (e : ResEdition) (cmp : ResEdition → ResEdition → Bool),
      ByEdition e cmp r = cmp r.edition e)
    ∧ (∀ (r : ResObject) (e : ResEdition),
      byEdition e r = ByEdition e CompareByEQ r) :=
  ⟨fun _ _ _ => rfl, fun _ _ => rfl⟩

/-- Claim C4: `ByCapabilityIndex` evaluates to true on every pair. -/
theorem ByCapabilityIndex_spec : ∀ (cai : CapAndItem),
    ByCapabilityIndex cai = true :=
  fun _ => rfl

/-- Claim C5: `ByName n r` is true iff `r.name == n` under exact,
case-sensitive string equality; names differing only in letter case
compare unequal. -/
theorem ByName_spec :
    (∀ (r : ResObject) (n : ResName), ByName n r = (r.name == n))
    ∧ ByName "kernel" sampleUpperRecord = false :=
  ⟨fun _ _ => rfl, by decide⟩

/-- Claim C6: the four status predicates return exactly the entry's status
flags `isInstalled`, `isUninstalled`, `transacts` and `isLocked`; being
pure functions of the entry, their evaluation leaves its status unchanged. -/
theorem statusPredicates_spec : ∀ (p : PoolItem),
    ByInstalled p = p.status.isInstalled
    ∧ ByUninstalled p = p.status.isUninstalled
    ∧ ByTransact p = p.status.transacts
    ∧ ByLock p = p.status.isLocked :=
  fun _ => ⟨rfl, rfl, rfl, rfl⟩

/-- Claim C7: `ByCaINotTransact` is the exact logical negation of
`ByCaITransact`: it is true iff the pair's record status does not report a
pending transaction. -/
theorem ByCaINotTransact_spec : ∀ (cai : CapAndItem),
    ByCaINotTransact cai = !(ByCaITransact cai)
    ∧ ByCaINotTransact cai = !(cai.item.status.transacts) :=
  fun _ => ⟨rfl, rfl⟩

/-- Claim C8: on every resolvable with a live implementation, the stream
output operator appends exactly an opening bracket, the kind, a closing
bracket, the name, a hyphen, the edition, a dot, the architecture, in
that order. -/
theorem printOn_spec : ∀ (str : String) (impl : ResolvableImpl),
    Resolvable.printOn str (Resolvable.mkFromImpl (some impl))
      = some (str ++ "[" ++ impl.kind ++ "]" ++ impl.name ++ "-"
          ++ impl.edition ++ "." ++ impl.arch) :=
  fun _ _ => rfl

/-- Claim C9: the generic factories agree with the explicit constructors:
`byKind T` equals `ByKind (ResTraits.kind T)` and `byCaIKind T` equals
`ByCaIKind (ResTraits.kind T)`, on every input. -/
theorem byKind_factory_spec :
    (∀ (T : ResType) (p : ResObject), byKind T p = ByKind (ResTraits.kind T) p)
    ∧ (∀ (T : ResType) (cai : CapAndItem),
      byCaIKind T cai = ByCaIKind (ResTraits.kind T) cai) :=
  ⟨fun _ _ => rfl, fun _ _ => rfl⟩

/-- Claim C10: the default constructor allocates a non-null implementation,
so all four accessors succeed on it; the pointer constructor stores the
supplied pointer unchecked, and its accessors succeed exactly when that
pointer is non-null. -/
theorem resolvable_pimpl_safety :
    (Resolvable.mkDefault.pimpl.isSome = true
      ∧ Resolvable.mkDefault.kind.isSome = true
      ∧ Resolvable.mkDefault.name.isSome = true
      ∧ Resolvable.mkDefault.edition.isSome = true
      ∧ Resolvable.mkDefault.arch.isSome = true)
    ∧ (∀ (p : Option ResolvableImpl), (Resolvable.mkFromImpl p).pimpl = p)
    ∧ (∀ (p : Option ResolvableImpl),
        (Resolvable.mkFromImpl p).kind.isSome = p.isSome
        ∧ (Resolvable.mkFromImpl p).name.isSome = p.isSome
        ∧ (Resolvable.mkFromImpl p).edition.isSome = p.isSome
        ∧ (Resolvable.mkFromImpl p).arch.isSome = p.isSome) := by
  refine ⟨⟨rfl, rfl, rfl, rfl, rfl⟩, fun _ => rfl, fun p => ?_⟩
  cases p <;> exact ⟨rfl, rfl, rfl, rfl⟩
